import Mathlib

/-!
Verification of the Telegram notifier (src/notifier_pkg/notifier.py).

The Python module is embedded shallowly:

* `ChatId` is the `Union[str, int]` destination identifier.
* Environment reads become `Option String` arguments.
* Side effects (log records, creation of the `telegram.Bot` handle, the
  transport send attempts) are collected in an explicit `Effect` trace.
* Exceptions are `Except String` (construction, where the code raises
  `ValueError`) and `Except PyExc` (sends, where the code distinguishes
  `TelegramError` from other exceptions).
* The transport collaborator `bot.send_message` is an oracle
  `ChatId → Option PyExc`: `none` means the send succeeds, `some e` means
  it raises `e`.

Python library semantics that the code relies on are reimplemented
faithfully for the inputs the program can see:
`str.split(',')` (`pySplit`), `str.strip()` (`pyStrip`, ASCII whitespace),
`str.startswith` (`pyStartsWith`), and `int(str)` (`pyIntOfString`,
optional sign, ASCII digits with single underscore separators).
-/

/-- A destination identifier: the code keeps tokens starting with `@` or `-`
as strings and converts the rest with `int(...)`. -/
inductive ChatId where
  | str (s : String)
  | int (n : Int)
deriving DecidableEq

/-- Log levels used by the module's logger calls. -/
inductive LogLevel where
  | info
  | warning
  | error
deriving DecidableEq

/-- Observable effects of the embedded code: logger calls, creation of the
`telegram.Bot` transport handle, and transport send attempts. -/
inductive Effect where
  | log (lvl : LogLevel) (msg : String)
  | createBot (token : String)
  | send (chat : ChatId) (text : String)
deriving DecidableEq

/-- Exceptions a send can raise: `telegram.error.TelegramError` or any
other exception, each carrying its message. -/
inductive PyExc where
  | telegramError (msg : String)
  | other (msg : String)
deriving DecidableEq

/-- The state established by `TelegramNotifier.__init__` on success. -/
structure Notifier where
  bot_token : String
  allowed_chat_ids : List ChatId
deriving DecidableEq

/-- Python truthiness test `not x` for an optional string:
true when the variable is unset (`None`) or the empty string. -/
def pyNotStr : Option String → Bool
  | none => true
  | some s => s.isEmpty

/-- Python `str.isspace` ASCII whitespace (the characters `str.strip()`
removes; the program only ever sees ASCII separators). -/
def pyIsSpace (c : Char) : Bool :=
  c == ' ' || c == '\t' || c == '\n' || c == '\r' || c == '\x0B' || c == '\x0C'

/-- Python `str.strip()`: drop leading and trailing whitespace. -/
def pyStrip (s : String) : String :=
  String.mk (((s.data.dropWhile pyIsSpace).reverse.dropWhile pyIsSpace).reverse)

/-- Splitting a character list at every occurrence of `sep`
(Python `str.split(sep)` semantics: `"".split(",") == [""]`,
`"a,".split(",") == ["a", ""]`). -/
def splitList (sep : Char) : List Char → List (List Char)
  | [] => [[]]
  | c :: cs =>
    let r := splitList sep cs
    if c = sep then [] :: r
    else
      match r with
      | [] => [[c]]
      | h :: t => (c :: h) :: t

/-- Python `s.split(sep)` for a one-character separator. -/
def pySplit (sep : Char) (s : String) : List String :=
  (splitList sep s.data).map String.mk

/-- Python `s.startswith(c)` for a one-character argument. -/
def pyStartsWith (c : Char) (s : String) : Bool :=
  match s.data with
  | [] => false
  | h :: _ => h = c

/-- Digit run accepted by Python `int`: ASCII digits, a single underscore
allowed between two digits. Accumulates the base-10 value. -/
def parseDigitsGo (acc : Nat) : List Char → Option Nat
  | [] => some acc
  | '_' :: c :: cs =>
    if c.isDigit then parseDigitsGo (acc * 10 + (c.toNat - 48)) cs else none
  | c :: cs =>
    if c.isDigit then parseDigitsGo (acc * 10 + (c.toNat - 48)) cs else none

/-- A nonempty digit run (must start with a digit, not an underscore). -/
def parseDigits : List Char → Option Nat
  | [] => none
  | c :: cs => if c.isDigit then parseDigitsGo (c.toNat - 48) cs else none

/-- Python `int(s)` on a string: optional surrounding whitespace, optional
sign, then a digit run; `none` models the raised `ValueError`. -/
def pyIntOfString (s : String) : Option Int :=
  let cs := ((s.data.dropWhile pyIsSpace).reverse.dropWhile pyIsSpace).reverse
  match cs with
  | '+' :: rest => (parseDigits rest).map (fun n => (n : Int))
  | '-' :: rest => (parseDigits rest).map (fun n => -(n : Int))
  | _ => (parseDigits cs).map (fun n => (n : Int))

/-- One iteration of the `__init__` parsing loop body: a trimmed token
starting with `@` or `-` is kept as a string, anything else goes through
`int(...)`; `none` models the `ValueError` escaping the loop. -/
def parseToken (t : String) : Option ChatId :=
  if pyStartsWith '@' t || pyStartsWith '-' t then some (ChatId.str t)
  else (pyIntOfString t).map ChatId.int

/-- The `__init__` parsing loop over all trimmed tokens: builds
`allowed_chat_ids` in order, failing as a whole on the first bad token. -/
def parseAllTokens : List String → Option (List ChatId)
  | [] => some []
  | t :: ts =>
    match parseToken t, parseAllTokens ts with
    | some c, some cs => some (c :: cs)
    | _, _ => none

/-- `TelegramNotifier.__init__`, with the two environment reads as
arguments. Returns the raised `ValueError` message or the constructed
state, together with the trace of logs and bot creation, in program
order. -/
def initNotifier (tokenEnv allowedEnv : Option String) :
    Except String Notifier × List Effect :=
  let a0 : List Effect := [Effect.log LogLevel.info "Initializing TelegramNotifier..."]
  if pyNotStr tokenEnv then
    (Except.error "TELEGRAM_NOTIFIER_BOT_TOKEN is not configured.",
      a0 ++ [Effect.log LogLevel.error
        "FATAL: TELEGRAM_NOTIFIER_BOT_TOKEN environment variable not set."])
  else if pyNotStr allowedEnv then
    (Except.error "TELEGRAM_NOTIFIER_ALLOWED_IDS is not configured.",
      a0 ++ [Effect.log LogLevel.error
        "FATAL: TELEGRAM_NOTIFIER_ALLOWED_IDS environment variable not set."])
  else
    let tok := tokenEnv.getD ""
    let idsStr := allowedEnv.getD ""
    let rawIds := (pySplit ',' idsStr).map pyStrip
    match parseAllTokens rawIds with
    | none =>
      (Except.error "Invalid format for TELEGRAM_ALLOWED_IDS.",
        a0 ++ [Effect.log LogLevel.error
          ("FATAL: TELEGRAM_ALLOWED_IDS is not a valid comma-separated list of IDs: \x27"
            ++ idsStr ++ "\x27")])
    | some ids =>
      if ids.isEmpty then
        (Except.error "Invalid format for TELEGRAM_ALLOWED_IDS.",
          a0 ++ [Effect.log LogLevel.error
            ("FATAL: TELEGRAM_ALLOWED_IDS is not a valid comma-separated list of IDs: \x27"
              ++ idsStr ++ "\x27")])
      else
        (Except.ok { bot_token := tok, allowed_chat_ids := ids },
          a0 ++ [Effect.log LogLevel.info
              ("Notifier configured for " ++ toString ids.length ++ " channel(s)/user(s)."),
            Effect.createBot tok,
            Effect.log LogLevel.info "Telegram Bot initialized successfully."])

/-- A Python value passed as the `level` argument of `notify`
(an integer, or a non-integer such as a string or `None`). -/
inductive PyVal where
  | vint (n : Int)
  | vstr (s : String)
  | vnone
deriving DecidableEq

/-- Python `str()` of a level value, as interpolated into the warning. -/
def pyValStr : PyVal → String
  | PyVal.vint n => toString n
  | PyVal.vstr s => s
  | PyVal.vnone => "None"

/-- The `level` validation at the top of `notify`:
`if not isinstance(level, int) or level not in [1, 2, 3]` logs a warning
and defaults to 1. Returns the effective level and the warning trace. -/
def validateLevel (v : PyVal) : Int × List Effect :=
  match v with
  | PyVal.vint n =>
    if n = 1 ∨ n = 2 ∨ n = 3 then (n, [])
    else (1, [Effect.log LogLevel.warning
      ("Invalid notification level \x27" ++ pyValStr v ++ "\x27. Defaulting to 1 (Info).")])
  | _ => (1, [Effect.log LogLevel.warning
      ("Invalid notification level \x27" ++ pyValStr v ++ "\x27. Defaulting to 1 (Info).")])

/-- The `if`/`elif` chain assigning the status header, starting from the
empty string. -/
def levelHeader (level : Int) : String :=
  if level = 1 then "ℹ️ [INFO]"
  else if level = 2 then "⚠️ [WARNING]"
  else if level = 3 then "❌ [ERROR]"
  else ""

/-- `full_message = f"{prefix}\n\n{message}"`. -/
def composeFull (level : Int) (message : String) : String :=
  levelHeader level ++ "\n\n" ++ message

/-- Python `str()` of a chat id, as interpolated into the send logs. -/
def pyStrChatId : ChatId → String
  | ChatId.str s => s
  | ChatId.int n => toString n

/-- `await self.bot.send_message(...)`: the attempt is recorded, and the
oracle decides whether it raises. -/
def botSend (outcome : ChatId → Option PyExc) (chat : ChatId) (text : String) :
    Except PyExc Unit × List Effect :=
  match outcome chat with
  | none => (Except.ok (), [Effect.send chat text])
  | some e => (Except.error e, [Effect.send chat text])

/-- `TelegramNotifier._send_single_message`: the `try` block around the
send, with the `except TelegramError` and `except Exception` handlers
turning every raised exception into an error log. -/
def sendSingleMessage (outcome : ChatId → Option PyExc) (chat : ChatId) (text : String) :
    Except PyExc Unit × List Effect :=
  match botSend outcome chat text with
  | (Except.ok _, acts) =>
    (Except.ok (), acts ++ [Effect.log LogLevel.info
      ("Successfully sent message to chat_id: " ++ pyStrChatId chat)])
  | (Except.error (PyExc.telegramError e), acts) =>
    (Except.ok (), acts ++ [Effect.log LogLevel.error
      ("Failed to send message to chat_id " ++ pyStrChatId chat ++ ": " ++ e)])
  | (Except.error (PyExc.other e), acts) =>
    (Except.ok (), acts ++ [Effect.log LogLevel.error
      ("An unexpected error occurred while sending to " ++ pyStrChatId chat ++ ": " ++ e)])

/-- `asyncio.gather` join semantics on the per-task results: every task
runs to completion (all traces happen), and the first task exception, if
any, is what `gather` raises. -/
def gatherResults (rs : List (Except PyExc Unit × List Effect)) :
    Except PyExc Unit × List Effect :=
  ((rs.map Prod.fst).foldr
      (fun r acc => match r with | Except.error e => Except.error e | Except.ok _ => acc)
      (Except.ok ()),
    (rs.map Prod.snd).flatten)

/-- `TelegramNotifier.notify`: validate the level, build the header,
compose the full text, log the destination count, send to every
destination via `asyncio.gather`, and log completion when no task raised. -/
def notify (n : Notifier) (outcome : ChatId → Option PyExc)
    (message : String) (levelArg : PyVal) : Except PyExc Unit × List Effect :=
  let v := validateLevel levelArg
  let full := composeFull v.1 message
  let pre := v.2 ++ [Effect.log LogLevel.info
    ("Sending notification (Level " ++ toString v.1 ++ ") to "
      ++ toString n.allowed_chat_ids.length ++ " destination(s).")]
  let g := gatherResults (n.allowed_chat_ids.map (fun c => sendSingleMessage outcome c full))
  match g.1 with
  | Except.ok _ => (Except.ok (), pre ++ g.2 ++ [Effect.log LogLevel.info "All notifications sent."])
  | Except.error e => (Except.error e, pre ++ g.2)

/-- `notify` with the object state threaded explicitly: the method body
assigns no attribute of `self`, so the post-state is the pre-state. -/
def notifyStateful (n : Notifier) (outcome : ChatId → Option PyExc)
    (message : String) (levelArg : PyVal) :
    (Except PyExc Unit × List Effect) × Notifier :=
  (notify n outcome message levelArg, n)

/-- The send attempts in a trace, in order, with the text passed. -/
def sendsOf (acts : List Effect) : List (ChatId × String) :=
  acts.filterMap (fun a =>
    match a with
    | Effect.send c t => some (c, t)
    | _ => none)

/-- Count of error-level log records in a trace. -/
def errorLogCount (acts : List Effect) : Nat :=
  (acts.filter (fun a =>
    match a with
    | Effect.log LogLevel.error _ => true
    | _ => false)).length

/-- Count of per-send success logs (`"Successfully sent message to
chat_id: ..."`) in a trace. -/
def successLogCount (acts : List Effect) : Nat :=
  (acts.filter (fun a =>
    match a with
    | Effect.log LogLevel.info m =>
      List.isPrefixOf "Successfully sent message to chat_id: ".data m.data
    | _ => false)).length

/-- Whether `needle` occurs as a contiguous substring of `hay`
(used to check whether an error message cites a given string). -/
def hasSub (needle : List Char) : List Char → Bool
  | [] => needle.isEmpty
  | c :: t => List.isPrefixOf needle (c :: t) || hasSub needle t

/-- Count of transport-touching effects (bot creation or send attempts)
in a trace: `0` means no network client was created and no network
interaction occurred. -/
def transportEffectCount (acts : List Effect) : Nat :=
  (acts.filter (fun a =>
    match a with
    | Effect.createBot _ => true
    | Effect.send _ _ => true
    | _ => false)).length

/-- A concrete notifier with three destinations, for the spec's
three-destination scenario. -/
def demoNotifier : Notifier :=
  { bot_token := "T", allowed_chat_ids := [ChatId.int 10, ChatId.int 20, ChatId.int 30] }

/-- A concrete outcome pattern: the second destination's send raises a
transport error, the first and third succeed. -/
def demoOutcome : ChatId → Option PyExc :=
  fun c => if c = ChatId.int 20 then some (PyExc.telegramError "boom") else none

/-- Every run of `_send_single_message` returns normally: each raised
exception is consumed by one of the two `except` handlers. -/
theorem sendSingleMessage_fst (o : ChatId → Option PyExc) (c : ChatId) (t : String) :
    (sendSingleMessage o c t).1 = Except.ok () := by
  cases h : o c with
  | none => simp [sendSingleMessage, botSend, h]
  | some e => cases e <;> simp [sendSingleMessage, botSend, h]

/-- Every run of `_send_single_message` attempts exactly its own send,
whatever the outcome. -/
theorem sendSingleMessage_sends (o : ChatId → Option PyExc) (c : ChatId) (t : String) :
    sendsOf (sendSingleMessage o c t).2 = [(c, t)] := by
  cases h : o c with
  | none => simp [sendSingleMessage, botSend, h, sendsOf]
  | some e => cases e <;> simp [sendSingleMessage, botSend, h, sendsOf]

/-- The `gather` join returns normally when every task did. -/
theorem foldrFirstErr_ok (es : List (Except PyExc Unit))
    (h : ∀ e ∈ es, e = Except.ok ()) :
    es.foldr
      (fun r acc => match r with | Except.error e => Except.error e | Except.ok _ => acc)
      (Except.ok ()) = Except.ok () := by
  induction es with
  | nil => rfl
  | cons a as ih =>
    have ha : a = Except.ok () := h a (by simp)
    rw [List.foldr_cons, ha]
    exact ih (fun e he => h e (by simp [he]))

/-- Closed form of `notify`: it returns normally, and its trace is the
level warning (if any), the pre-dispatch count log, the concatenated
per-destination send traces in list order, and the completion log. -/
theorem notify_eq (n : Notifier) (o : ChatId → Option PyExc) (m : String) (v : PyVal) :
    notify n o m v =
      (Except.ok (),
        (validateLevel v).2
          ++ [Effect.log LogLevel.info
              ("Sending notification (Level " ++ toString (validateLevel v).1 ++ ") to "
                ++ toString n.allowed_chat_ids.length ++ " destination(s).")]
          ++ (n.allowed_chat_ids.map
              (fun c => (sendSingleMessage o c (composeFull (validateLevel v).1 m)).2)).flatten
          ++ [Effect.log LogLevel.info "All notifications sent."]) := by
  have hok :
      (gatherResults (n.allowed_chat_ids.map
        (fun c => sendSingleMessage o c (composeFull (validateLevel v).1 m)))).1
        = Except.ok () := by
    unfold gatherResults
    simp only [List.map_map]
    exact foldrFirstErr_ok _ (by
      intro e he
      simp only [List.mem_map, Function.comp] at he
      obtain ⟨c, _, hc⟩ := he
      rw [← hc]
      exact sendSingleMessage_fst o c _)
  simp only [notify]
  rw [hok]
  simp [gatherResults, List.append_assoc, Function.comp_def]

/-- A `notify` call always returns normally. -/
theorem notify_fst_ok (n : Notifier) (o : ChatId → Option PyExc) (m : String) (v : PyVal) :
    (notify n o m v).1 = Except.ok () := by
  rw [notify_eq]

/-- `sendsOf` distributes over trace concatenation. -/
theorem sendsOf_append (a b : List Effect) :
    sendsOf (a ++ b) = sendsOf a ++ sendsOf b := by
  simp [sendsOf, List.filterMap_append]

/-- The concatenated traces of the per-destination tasks attempt exactly
one send per destination, in order. -/
theorem sendsOf_flatten_sends (o : ChatId → Option PyExc) (full : String)
    (cs : List ChatId) :
    sendsOf ((cs.map (fun c => (sendSingleMessage o c full).2)).flatten)
      = cs.map (fun c => (c, full)) := by
  induction cs with
  | nil => rfl
  | cons c cs ih =>
    simp only [List.map_cons, List.flatten_cons]
    rw [sendsOf_append, sendSingleMessage_sends, ih]
    rfl

/-- The level warning trace contains no send attempt. -/
theorem sendsOf_validateLevel (v : PyVal) : sendsOf (validateLevel v).2 = [] := by
  cases v with
  | vint k =>
    by_cases hk : k = 1 ∨ k = 2 ∨ k = 3 <;> simp [validateLevel, hk, sendsOf]
  | vstr s => rfl
  | vnone => rfl

/-- The send attempts of a `notify` call: one per destination, in list
order, each carrying the composed full message. -/
theorem sendsOf_notify (n : Notifier) (o : ChatId → Option PyExc) (m : String) (v : PyVal) :
    sendsOf (notify n o m v).2 =
      n.allowed_chat_ids.map (fun c => (c, composeFull (validateLevel v).1 m)) := by
  rw [notify_eq]
  rw [sendsOf_append, sendsOf_append, sendsOf_append, sendsOf_validateLevel,
    sendsOf_flatten_sends]
  simp [sendsOf]

/-- C1: For every destination list and every pattern of per-destination
send outcomes, `notify` returns normally: each individual send failure
(transport error or any other exception) is caught at single-destination
granularity and never prevents a send attempt to every other destination.
In particular, with three destinations where the second send raises a
transport error and the first and third succeed, `notify` attempts all
three, returns without exception, and the trace has exactly one failure
log and two success logs. -/
theorem notify_isolates_send_failures (n : Notifier) (o : ChatId → Option PyExc)
    (m : String) (v : PyVal) :
    ((notify n o m v).1 = Except.ok () ∧
      (sendsOf (notify n o m v).2).map Prod.fst = n.allowed_chat_ids) ∧
    ((notify demoNotifier demoOutcome "job done" (PyVal.vint 1)).1 = Except.ok () ∧
      (sendsOf (notify demoNotifier demoOutcome "job done" (PyVal.vint 1)).2).map Prod.fst
        = [ChatId.int 10, ChatId.int 20, ChatId.int 30] ∧
      errorLogCount (notify demoNotifier demoOutcome "job done" (PyVal.vint 1)).2 = 1 ∧
      successLogCount (notify demoNotifier demoOutcome "job done" (PyVal.vint 1)).2 = 2) := by
  refine ⟨⟨notify_fst_ok n o m v, ?_⟩, rfl, by decide, by decide, by decide⟩
  rw [sendsOf_notify]
  simp [Function.comp_def]

/-- C2: For every message body and every severity level in {1, 2, 3}, the
text `notify` composes and passes to each send is the level's fixed
prefix, then exactly two newline characters, then the original body
verbatim. -/
theorem notify_composes_level_text (n : Notifier) (o : ChatId → Option PyExc)
    (m : String) (lvl : Int) :
    (lvl = 1 → sendsOf (notify n o m (PyVal.vint lvl)).2
      = n.allowed_chat_ids.map (fun c => (c, "ℹ️ [INFO]" ++ "\n\n" ++ m))) ∧
    (lvl = 2 → sendsOf (notify n o m (PyVal.vint lvl)).2
      = n.allowed_chat_ids.map (fun c => (c, "⚠️ [WARNING]" ++ "\n\n" ++ m))) ∧
    (lvl = 3 → sendsOf (notify n o m (PyVal.vint lvl)).2
      = n.allowed_chat_ids.map (fun c => (c, "❌ [ERROR]" ++ "\n\n" ++ m))) := by
  refine ⟨?_, ?_, ?_⟩ <;> rintro rfl <;>
    rw [sendsOf_notify] <;> rfl

/-- C2 witness: the level-2 composition at a concrete notifier and body. -/
theorem notify_composes_level_text_witness :
    sendsOf (notify demoNotifier demoOutcome "disk almost full" (PyVal.vint 2)).2
      = [(ChatId.int 10, "⚠️ [WARNING]" ++ "\n\n" ++ "disk almost full"),
         (ChatId.int 20, "⚠️ [WARNING]" ++ "\n\n" ++ "disk almost full"),
         (ChatId.int 30, "⚠️ [WARNING]" ++ "\n\n" ++ "disk almost full")] := by
  have h := (notify_composes_level_text demoNotifier demoOutcome "disk almost full" 2).2.1 rfl
  simpa [demoNotifier] using h

/-- An invalid level value yields effective level 1 plus the logged
warning carrying the original value. -/
theorem validateLevel_invalid (v : PyVal)
    (h1 : v ≠ PyVal.vint 1) (h2 : v ≠ PyVal.vint 2) (h3 : v ≠ PyVal.vint 3) :
    validateLevel v = (1, [Effect.log LogLevel.warning
      ("Invalid notification level \x27" ++ pyValStr v ++ "\x27. Defaulting to 1 (Info).")]) := by
  cases v with
  | vint k =>
    have hk : ¬(k = 1 ∨ k = 2 ∨ k = 3) := by
      rintro (rfl | rfl | rfl)
      · exact h1 rfl
      · exact h2 rfl
      · exact h3 rfl
    simp [validateLevel, hk]
  | vstr s => rfl
  | vnone => rfl

/-- C3: For every severity input outside {1, 2, 3}, including non-integer
values, `notify` behaves exactly as if severity 1 had been passed — same
return, and the same trace except that a warning is recorded first — and
never raises. -/
theorem notify_invalid_level_defaults (n : Notifier) (o : ChatId → Option PyExc)
    (m : String) (v : PyVal)
    (h1 : v ≠ PyVal.vint 1) (h2 : v ≠ PyVal.vint 2) (h3 : v ≠ PyVal.vint 3) :
    (notify n o m v).1 = Except.ok () ∧
    (notify n o m v).2 =
      Effect.log LogLevel.warning
        ("Invalid notification level \x27" ++ pyValStr v ++ "\x27. Defaulting to 1 (Info).")
        :: (notify n o m (PyVal.vint 1)).2 := by
  refine ⟨notify_fst_ok n o m v, ?_⟩
  rw [notify_eq, notify_eq, validateLevel_invalid v h1 h2 h3]
  rfl

/-- C3 witness: a string-valued level at a concrete notifier. -/
theorem notify_invalid_level_defaults_witness :
    (notify demoNotifier demoOutcome "hello" (PyVal.vstr "high")).1 = Except.ok () ∧
    (notify demoNotifier demoOutcome "hello" (PyVal.vstr "high")).2 =
      Effect.log LogLevel.warning
        ("Invalid notification level \x27" ++ pyValStr (PyVal.vstr "high")
          ++ "\x27. Defaulting to 1 (Info).")
        :: (notify demoNotifier demoOutcome "hello" (PyVal.vint 1)).2 :=
  notify_invalid_level_defaults demoNotifier demoOutcome "hello" (PyVal.vstr "high")
    (by decide) (by decide) (by decide)

/-- C8: `notify` never mutates the notifier's state: the destination list
and token after a call are exactly those established at construction, so
a second call with identical arguments performs an identical, independent
dispatch round. -/
theorem notify_preserves_state (n : Notifier) (o : ChatId → Option PyExc)
    (m : String) (v : PyVal) :
    (notifyStateful n o m v).2 = n ∧
    (notifyStateful n o m v).2.allowed_chat_ids = n.allowed_chat_ids ∧
    (notifyStateful n o m v).2.bot_token = n.bot_token ∧
    notify (notifyStateful n o m v).2 o m v = notify n o m v :=
  ⟨rfl, rfl, rfl, rfl⟩

/-- C9: For every possible level argument, the effective level after
validation is 1, 2 or 3, the chosen prefix is one of the three fixed
non-empty strings, and the composed text never begins with a newline. -/
theorem effective_level_always_valid (v : PyVal) (m : String) :
    ((validateLevel v).1 = 1 ∨ (validateLevel v).1 = 2 ∨ (validateLevel v).1 = 3) ∧
    (levelHeader (validateLevel v).1 = "ℹ️ [INFO]"
      ∨ levelHeader (validateLevel v).1 = "⚠️ [WARNING]"
      ∨ levelHeader (validateLevel v).1 = "❌ [ERROR]") ∧
    (levelHeader (validateLevel v).1).isEmpty = false ∧
    pyStartsWith '\n' (composeFull (validateLevel v).1 m) = false := by
  have hv : (validateLevel v).1 = 1 ∨ (validateLevel v).1 = 2 ∨ (validateLevel v).1 = 3 := by
    cases v with
    | vint k =>
      by_cases hk : k = 1 ∨ k = 2 ∨ k = 3
      · rcases hk with rfl | rfl | rfl <;> simp [validateLevel]
      · simp [validateLevel, hk]
    | vstr s => simp [validateLevel]
    | vnone => simp [validateLevel]
  refine ⟨hv, ?_⟩
  have hsw : ∀ (h t : String), h.data ≠ [] →
      pyStartsWith '\n' ((h ++ "\n\n") ++ t) = pyStartsWith '\n' (h ++ "\n\n") := by
    intro h t hd
    unfold pyStartsWith
    rw [String.data_append]
    cases hh : h.data with
    | nil => exact absurd hh hd
    | cons a as => rw [String.data_append, hh]; rfl
  rcases hv with h1 | h1 <;> [skip; rcases h1 with h1 | h1] <;>
    rw [h1] <;>
    refine ⟨by decide, by decide, ?_⟩ <;>
    · unfold composeFull
      rw [hsw _ m (by decide)]
      decide

/-- `str.split` never yields an empty list of tokens. -/
theorem splitList_ne_nil (sep : Char) (l : List Char) : splitList sep l ≠ [] := by
  induction l with
  | nil => simp [splitList]
  | cons c cs ih =>
    unfold splitList
    by_cases hc : c = sep
    · simp [hc]
    · simp only [hc, if_false]
      cases h : splitList sep cs with
      | nil => exact absurd h ih
      | cons a as => simp

/-- The parsing loop preserves the token count. -/
theorem parseAllTokens_length (ts : List String) (l : List ChatId)
    (h : parseAllTokens ts = some l) : l.length = ts.length := by
  induction ts generalizing l with
  | nil =>
    simp only [parseAllTokens] at h
    cases h
    rfl
  | cons t ts ih =>
    simp only [parseAllTokens] at h
    cases hp : parseToken t with
    | none => rw [hp] at h; cases h
    | some c =>
      cases hr : parseAllTokens ts with
      | none => rw [hp, hr] at h; cases h
      | some cs =>
        rw [hp, hr] at h
        cases h
        simp [ih cs hr]

/-- One bad token fails the whole parsing loop. -/
theorem parseAllTokens_none_of_mem (ts : List String) (t : String)
    (hmem : t ∈ ts) (hbad : parseToken t = none) : parseAllTokens ts = none := by
  induction ts with
  | nil => cases hmem
  | cons a as ih =>
    rcases List.mem_cons.mp hmem with rfl | hmem2
    · simp [parseAllTokens, hbad]
    · cases hp : parseToken a <;> simp [parseAllTokens, hp, ih hmem2]

/-- A completed parsing loop over the split tokens yields a non-empty
list, because splitting yields at least one token. -/
theorem parsed_ne_nil (s : String) (l : List ChatId)
    (h : parseAllTokens ((pySplit ',' s).map pyStrip) = some l) :
    l.isEmpty = false := by
  have hlen := parseAllTokens_length _ _ h
  rw [List.length_map] at hlen
  cases hl : l with
  | nil =>
    subst hl
    simp only [List.length_nil] at hlen
    have := splitList_ne_nil ',' s.data
    cases hsp : splitList ',' s.data with
    | nil => exact absurd hsp this
    | cons a as =>
      rw [pySplit, hsp] at hlen
      simp at hlen
  | cons a as => rfl

/-- If the parsing loop completes, the destination-list value was not the
empty string (the empty string splits into one empty token, which fails). -/
theorem s_ne_empty_of_parse (s : String) (l : List ChatId)
    (hparse : parseAllTokens ((pySplit ',' s).map pyStrip) = some l) :
    s.isEmpty = false := by
  cases hb : s.isEmpty with
  | false => rfl
  | true =>
    have hs : s = "" := (String.isEmpty_iff s).mp hb
    subst hs
    simp [pySplit, splitList, pyStrip, parseAllTokens, parseToken, pyStartsWith,
      pyIntOfString, parseDigits] at hparse

/-- Closed form of `__init__` on the successful path. -/
theorem initNotifier_ok (tokenEnv : Option String) (s : String) (l : List ChatId)
    (htok : pyNotStr tokenEnv = false)
    (hparse : parseAllTokens ((pySplit ',' s).map pyStrip) = some l) :
    initNotifier tokenEnv (some s) =
      (Except.ok { bot_token := tokenEnv.getD "", allowed_chat_ids := l },
        [Effect.log LogLevel.info "Initializing TelegramNotifier...",
         Effect.log LogLevel.info
           ("Notifier configured for " ++ toString l.length ++ " channel(s)/user(s)."),
         Effect.createBot (tokenEnv.getD ""),
         Effect.log LogLevel.info "Telegram Bot initialized successfully."]) := by
  have hs := s_ne_empty_of_parse s l hparse
  have hne := parsed_ne_nil s l hparse
  have h2 : pyNotStr (some s) = false := hs
  simp [initNotifier, htok, h2, hparse, hne]

/-- Closed form of `__init__` on the token-parse-failure path. -/
theorem initNotifier_parse_fail (tokenEnv : Option String) (s : String)
    (htok : pyNotStr tokenEnv = false) (hs : s.isEmpty = false)
    (hparse : parseAllTokens ((pySplit ',' s).map pyStrip) = none) :
    initNotifier tokenEnv (some s) =
      (Except.error "Invalid format for TELEGRAM_ALLOWED_IDS.",
        [Effect.log LogLevel.info "Initializing TelegramNotifier...",
         Effect.log LogLevel.error
           ("FATAL: TELEGRAM_ALLOWED_IDS is not a valid comma-separated list of IDs: \x27"
             ++ s ++ "\x27")]) := by
  have h2 : pyNotStr (some s) = false := hs
  simp [initNotifier, htok, h2, hparse]

/-- C4: For every valid destination-list string (tokens, after trimming,
each kept as a string when starting with `@` or `-`, else parsed as a
base-10 integer), construction resolves the identifiers in input order
with that typing; in particular `"@chan,-100123,555"` resolves to
`[str "@chan", str "-100123", int 555]`. -/
theorem initNotifier_resolves_valid_list (tokenEnv : Option String)
    (s : String) (l : List ChatId)
    (htok : pyNotStr tokenEnv = false)
    (hparse : parseAllTokens ((pySplit ',' s).map pyStrip) = some l) :
    (initNotifier tokenEnv (some s)).1
      = Except.ok { bot_token := tokenEnv.getD "", allowed_chat_ids := l } ∧
    (∀ t : String, (pyStartsWith '@' t || pyStartsWith '-' t) = true →
      parseToken t = some (ChatId.str t)) ∧
    (∀ (t : String) (z : Int), (pyStartsWith '@' t || pyStartsWith '-' t) = false →
      pyIntOfString t = some z → parseToken t = some (ChatId.int z)) ∧
    parseAllTokens ((pySplit ',' "@chan,-100123,555").map pyStrip)
      = some [ChatId.str "@chan", ChatId.str "-100123", ChatId.int 555] := by
  refine ⟨?_, ?_, ?_, by decide⟩
  · rw [initNotifier_ok tokenEnv s l htok hparse]
  · intro t ht
    simp [parseToken, ht]
  · intro t z ht hz
    simp [parseToken, ht, hz]

/-- C4 witness: the spec's example list with a concrete token. -/
theorem initNotifier_resolves_valid_list_witness :
    (initNotifier (some "T") (some "@chan,-100123,555")).1
      = Except.ok { bot_token := "T",
                    allowed_chat_ids :=
                      [ChatId.str "@chan", ChatId.str "-100123", ChatId.int 555] } :=
  (initNotifier_resolves_valid_list (some "T") "@chan,-100123,555"
    [ChatId.str "@chan", ChatId.str "-100123", ChatId.int 555] (by decide) (by decide)).1

/-- C5 counterexample: with destination list `"@chan,abc"` the raised
error's message is the fixed string `"Invalid format for
TELEGRAM_ALLOWED_IDS."`, which contains neither the offending token
`"abc"` nor the raw list string `"@chan,abc"` — the claim that the error
message cites the offending raw string is false. -/
theorem initNotifier_message_cites_nothing :
    (initNotifier (some "T") (some "@chan,abc")).1
      = Except.error "Invalid format for TELEGRAM_ALLOWED_IDS." ∧
    hasSub "abc".data "Invalid format for TELEGRAM_ALLOWED_IDS.".data = false ∧
    hasSub "@chan,abc".data "Invalid format for TELEGRAM_ALLOWED_IDS.".data = false :=
  ⟨rfl, by decide, by decide⟩

/-- C5 (amended): for every destination-list string with a trimmed token
that neither starts with `@`/`-` nor parses as an integer, construction
fails with a ConfigurationError carrying the fixed message, the raw list
string is cited in the error log (not in the exception message), and no
transport handle is created. -/
theorem initNotifier_parse_failure (tokenEnv : Option String) (s t : String)
    (htok : pyNotStr tokenEnv = false) (hs : s.isEmpty = false)
    (hmem : t ∈ (pySplit ',' s).map pyStrip) (hbad : parseToken t = none) :
    (initNotifier tokenEnv (some s)).1
      = Except.error "Invalid format for TELEGRAM_ALLOWED_IDS." ∧
    (initNotifier tokenEnv (some s)).2 =
      [Effect.log LogLevel.info "Initializing TelegramNotifier...",
       Effect.log LogLevel.error
         ("FATAL: TELEGRAM_ALLOWED_IDS is not a valid comma-separated list of IDs: \x27"
           ++ s ++ "\x27")] ∧
    transportEffectCount (initNotifier tokenEnv (some s)).2 = 0 := by
  have hparse := parseAllTokens_none_of_mem _ t hmem hbad
  rw [initNotifier_parse_fail tokenEnv s htok hs hparse]
  exact ⟨rfl, rfl, rfl⟩

/-- C5 witness: the token `"abc"` alone. -/
theorem initNotifier_parse_failure_witness :
    (initNotifier (some "T") (some "abc")).1
      = Except.error "Invalid format for TELEGRAM_ALLOWED_IDS." ∧
    (initNotifier (some "T") (some "abc")).2 =
      [Effect.log LogLevel.info "Initializing TelegramNotifier...",
       Effect.log LogLevel.error
         ("FATAL: TELEGRAM_ALLOWED_IDS is not a valid comma-separated list of IDs: \x27"
           ++ "abc" ++ "\x27")] ∧
    transportEffectCount (initNotifier (some "T") (some "abc")).2 = 0 :=
  initNotifier_parse_failure (some "T") "abc" "abc"
    (by decide) (by decide) (by decide) (by decide)

/-- C6: with the token value or the destination-list value unset or
empty, construction fails — a missing/empty token with the
token-not-configured error, a missing/empty destination list with the
destination-list-not-configured error — and no transport handle is
created and no send occurs before the failure. -/
theorem initNotifier_missing_env (tokenEnv idsEnv : Option String)
    (h : (tokenEnv = none ∨ tokenEnv = some "") ∨ (idsEnv = none ∨ idsEnv = some "")) :
    (initNotifier tokenEnv idsEnv).1 =
      Except.error (if pyNotStr tokenEnv then "TELEGRAM_NOTIFIER_BOT_TOKEN is not configured."
        else "TELEGRAM_NOTIFIER_ALLOWED_IDS is not configured.") ∧
    transportEffectCount (initNotifier tokenEnv idsEnv).2 = 0 := by
  by_cases ht : pyNotStr tokenEnv = true
  · simp [initNotifier, ht, transportEffectCount]
  · have hto : pyNotStr tokenEnv = false := by simpa using ht
    have hi : pyNotStr idsEnv = true := by
      rcases h with (rfl | rfl) | (rfl | rfl)
      · exact absurd hto (by decide)
      · exact absurd hto (by decide)
      · rfl
      · decide
    simp [initNotifier, hto, hi, transportEffectCount]

/-- C6 witness: unset token with a set destination list. -/
theorem initNotifier_missing_env_witness :
    (initNotifier none (some "@chan")).1
      = Except.error "TELEGRAM_NOTIFIER_BOT_TOKEN is not configured." ∧
    transportEffectCount (initNotifier none (some "@chan")).2 = 0 := by
  have h := initNotifier_missing_env none (some "@chan") (Or.inl (Or.inl rfl))
  simpa using h

/-- C7: whenever construction succeeds the resolved destination list is
non-empty, and the defensive empty-list branch is unreachable: whenever
the parsing loop over the split tokens completes, its result is
non-empty, because splitting any string yields at least one token. -/
theorem initNotifier_success_nonempty (tokenEnv idsEnv : Option String)
    (n : Notifier) (acts : List Effect)
    (h : initNotifier tokenEnv idsEnv = (Except.ok n, acts)) :
    n.allowed_chat_ids.isEmpty = false ∧
    ∀ (s : String) (l : List ChatId),
      parseAllTokens ((pySplit ',' s).map pyStrip) = some l → l.isEmpty = false := by
  refine ⟨?_, fun s l hp => parsed_ne_nil s l hp⟩
  simp only [initNotifier] at h
  split at h
  · simp [Prod.ext_iff] at h
  · split at h
    · simp [Prod.ext_iff] at h
    · split at h
      · simp [Prod.ext_iff] at h
      · rename_i ids hparse
        split at h
        · simp [Prod.ext_iff] at h
        · rename_i hne
          simp only [Prod.ext_iff, Except.ok.injEq] at h
          rw [← h.1]
          simpa using hne

/-- C7 witness: a concrete successful construction has a non-empty list,
and the defensive branch condition is false on its concrete parse. -/
theorem initNotifier_success_nonempty_witness :
    ([ChatId.int 5] : List ChatId).isEmpty = false ∧
    ([ChatId.int 5] : List ChatId).isEmpty = false := by
  have h := initNotifier_success_nonempty (some "T") (some "5")
    { bot_token := "T", allowed_chat_ids := [ChatId.int 5] }
    [Effect.log LogLevel.info "Initializing TelegramNotifier...",
     Effect.log LogLevel.info "Notifier configured for 1 channel(s)/user(s).",
     Effect.createBot "T",
     Effect.log LogLevel.info "Telegram Bot initialized successfully."] rfl
  exact ⟨h.1, h.2 "5" [ChatId.int 5] (by decide)⟩

/-- C10: for every destination-list string containing a token that is
empty after trimming (a trailing comma, a whitespace-only value),
construction fails with a ConfigurationError, and no transport handle is
created. -/
theorem initNotifier_empty_token_fails (tokenEnv : Option String) (s : String)
    (htok : pyNotStr tokenEnv = false)
    (hmem : "" ∈ (pySplit ',' s).map pyStrip) :
    (∃ msg, (initNotifier tokenEnv (some s)).1 = Except.error msg) ∧
    transportEffectCount (initNotifier tokenEnv (some s)).2 = 0 := by
  cases hs : s.isEmpty with
  | true =>
    have h2 : pyNotStr (some s) = true := hs
    constructor
    · exact ⟨"TELEGRAM_NOTIFIER_ALLOWED_IDS is not configured.",
        by simp [initNotifier, htok, h2]⟩
    · simp [initNotifier, htok, h2, transportEffectCount]
  | false =>
    have hparse := parseAllTokens_none_of_mem _ "" hmem (by decide)
    rw [initNotifier_parse_fail tokenEnv s htok hs hparse]
    exact ⟨⟨"Invalid format for TELEGRAM_ALLOWED_IDS.", rfl⟩, rfl⟩

/-- C10 witness: a trailing comma. -/
theorem initNotifier_empty_token_fails_witness :
    (∃ msg, (initNotifier (some "T") (some "@chan,")).1 = Except.error msg) ∧
    transportEffectCount (initNotifier (some "T") (some "@chan,")).2 = 0 :=
  initNotifier_empty_token_fails (some "T") "@chan," (by decide) (by decide)
